import Mathlib

/-!
Shallow embedding of the content-access utility module of the
Paul-Chatterton portfolio site (source file `src/unnamed/part_000`).

The module exports four JavaScript functions:

  * `fetchFromSanity(query, fallback = null)` — awaits `client.fetch(query)`
    inside a `try`/`catch`; returns `result ?? fallback` on success and
    `fallback` when the fetch throws.
  * `formatYear(year)` — `typeof year === 'number' ? year.toString() : ''`.
  * `truncateText(text, maxLength = 150)` — returns `''` when
    `!text || typeof text !== 'string'`; returns `text` unchanged when
    `text.length <= maxLength`; otherwise
    `text.slice(0, maxLength).trim() + '...'`.
  * `formatDate(dateString)` — returns `''` when `!dateString`; otherwise
    `new Date(dateString).toLocaleDateString('en-GB', {year:'numeric',
    month:'long', day:'numeric'})` inside a `try`/`catch` whose handler
    returns `''`.

JavaScript values are modelled by the inductive type `JSVal`; numbers are
modelled by `JSNum`, restricted to the non-finite values and the integers
(every numeric input appearing in the specification is an integer, and for
integers of magnitude below 2^53 the IEEE double holding them is exact).
The remote fetch of `fetchFromSanity` is modelled by its outcome, a value
of `Except JSVal JSVal`: `Except.error e` is a rejected promise carrying
the thrown value `e`, `Except.ok r` a fulfilled one carrying the result.

The platform primitives the module calls (`String.prototype.slice`,
`String.prototype.trim`, `Number.prototype.toString`, the `Date`
constructor, `Date.prototype.toLocaleDateString`) are embedded from their
ECMA-262 / ECMA-402 semantics, restricted to the fragment the module can
reach; each such definition documents its fragment.  The host time zone is
taken to be UTC (offset zero), the build environment of the site, and the
locale is the fixed `'en-GB'` that the source passes.
-/

/-- JavaScript numbers, restricted to the non-finite values and the
integers.  `finite i` stands for the IEEE double whose value is the
integer `i` (exact for magnitudes below 2^53). -/
inductive JSNum where
  | nan
  | inf
  | negInf
  | finite (i : Int)
deriving DecidableEq, Repr

/-- JavaScript values: `null`, `undefined`, booleans, numbers, strings,
arrays and (plain, opaque) objects.  Strings are modelled as sequences of
code points; every string in the specification lies in the Basic
Multilingual Plane, where code points and UTF-16 code units coincide. -/
inductive JSVal where
  | null
  | undef
  | bool (b : Bool)
  | num (n : JSNum)
  | str (s : String)
  | arr (xs : List JSVal)
  | obj

/-- ToBoolean of ECMA-262, negated: the falsy values are `null`,
`undefined`, `false`, `0`, `NaN` and the empty string; every array and
object is truthy. -/
def jsFalsy : JSVal → Bool
  | JSVal.null => true
  | JSVal.undef => true
  | JSVal.bool b => !b
  | JSVal.num JSNum.nan => true
  | JSVal.num (JSNum.finite i) => i == 0
  | JSVal.num _ => false
  | JSVal.str s => s.data.isEmpty
  | JSVal.arr _ => false
  | JSVal.obj => false

/-- A value is nullish (the test applied by the `??` operator) exactly when
it is `null` or `undefined`. -/
def jsNullish : JSVal → Bool
  | JSVal.null => true
  | JSVal.undef => true
  | _ => false

/-- The `typeof v === 'string'` test. -/
def jsIsString : JSVal → Bool
  | JSVal.str _ => true
  | _ => false

/-- Embeds `fetchFromSanity(query, fallback = null)` from
`src/unnamed/part_000`.  The remote call is represented by its outcome
`o`: the `try` block returns `result ?? fallback` when the awaited fetch
fulfills with `result`, and the `catch` block (which only logs) returns
`fallback` when it rejects. -/
def fetchFromSanity (o : Except JSVal JSVal) (fallback : JSVal := JSVal.null) : JSVal :=
  match o with
  | Except.ok result => if jsNullish result then fallback else result
  | Except.error _ => fallback

/-- Number.prototype.toString (radix 10) of ECMA-262, on the modelled
numbers: `NaN`, the infinities, and integers.  For an integer of magnitude
below 10^21 the Number-to-String algorithm prints the plain decimal
digits, with a leading minus sign when negative; larger magnitudes (which
print in exponential form) are outside the modelled fragment. -/
def jsNumToString : JSNum → String
  | JSNum.nan => "NaN"
  | JSNum.inf => "Infinity"
  | JSNum.negInf => "-Infinity"
  | JSNum.finite i => toString i

/-- Embeds `formatYear(year)` from `src/unnamed/part_000`:
`typeof year === 'number' ? year.toString() : ''`. -/
def formatYear : JSVal → String
  | JSVal.num n => jsNumToString n
  | _ => ""

/-- White space and line terminators trimmed by `String.prototype.trim`
(ECMA-262 TrimString): tab, LF, VT, FF, CR, space, NBSP, the Unicode
space separators, LS, PS and the BOM. -/
def isJsWhitespace (c : Char) : Bool :=
  let n := c.toNat
  n == 0x09 || n == 0x0A || n == 0x0B || n == 0x0C || n == 0x0D ||
  n == 0x20 || n == 0xA0 || n == 0x1680 ||
  (decide (0x2000 ≤ n) && decide (n ≤ 0x200A)) ||
  n == 0x2028 || n == 0x2029 || n == 0x202F || n == 0x205F ||
  n == 0x3000 || n == 0xFEFF

/-- String.prototype.trim of ECMA-262: removes the white space at both
ends of the string (leading and trailing). -/
def jsTrim (s : String) : String :=
  String.mk (((s.data.dropWhile isJsWhitespace).reverse.dropWhile isJsWhitespace).reverse)

/-- String.prototype.slice of ECMA-262: each of the two indices is taken
from the end of the string when negative, then clamped to `[0, length]`;
the result is the run of characters from the first clamped index up to,
not including, the second (empty when they cross). -/
def jsSlice (s : String) (start finish : Int) : String :=
  let len : Int := s.length
  let clampIdx : Int → Int := fun i => if i < 0 then max (len + i) 0 else min i len
  let f := clampIdx start
  let t := clampIdx finish
  String.mk ((s.data.drop f.toNat).take (t - f).toNat)

/-- Embeds `truncateText(text, maxLength = 150)` from
`src/unnamed/part_000`.  The guard `!text || typeof text !== 'string'`
returns the empty string; a string within the limit is returned
unchanged; a longer one is cut with `slice(0, maxLength)`, trimmed at
both ends by `trim()`, and suffixed with an ellipsis.  The second arm of
the final match is unreachable: the guard has already returned on every
non-string. -/
def truncateText (text : JSVal) (maxLength : Int := 150) : String :=
  if jsFalsy text || !(jsIsString text) then ""
  else match text with
    | JSVal.str s =>
      if (s.length : Int) ≤ maxLength then s
      else jsTrim (jsSlice s 0 maxLength) ++ "..."
    | _ => ""

/-- Value of one decimal digit character. -/
def digitVal (c : Char) : Int := (c.toNat : Int) - 48

/-- Two decimal digits read as a number. -/
def twoDigits (a b : Char) : Option Int :=
  if a.isDigit && b.isDigit then some (10 * digitVal a + digitVal b) else none

/-- Four decimal digits read as a number. -/
def fourDigits (a b c d : Char) : Option Int :=
  if a.isDigit && b.isDigit && c.isDigit && d.isDigit then
    some (1000 * digitVal a + 100 * digitVal b + 10 * digitVal c + digitVal d)
  else none

/-- Gregorian leap-year test. -/
def isLeapYear (y : Int) : Bool :=
  (y % 4 == 0 && y % 100 != 0) || y % 400 == 0

/-- Number of days in a month of the proleptic Gregorian calendar. -/
def daysInMonth (y m : Int) : Int :=
  if m == 2 then (if isLeapYear y then 29 else 28)
  else if m == 4 || m == 6 || m == 9 || m == 11 then 30
  else 31

/-- Days from the Unix epoch to the civil date `y-m-d` of the proleptic
Gregorian calendar (the MakeDay computation of ECMA-262). -/
def daysFromCivil (y m d : Int) : Int :=
  let y2 := if m ≤ 2 then y - 1 else y
  let era := Int.fdiv y2 400
  let yoe := y2 - era * 400
  let mp := Int.emod (m + 9) 12
  let doy := Int.fdiv (153 * mp + 2) 5 + d - 1
  let doe := yoe * 365 + Int.fdiv yoe 4 - Int.fdiv yoe 100 + doy
  era * 146097 + doe - 719468

/-- Civil date `(year, month, day)` of the day that lies `z` days after
the Unix epoch (inverse of `daysFromCivil`). -/
def civilFromDays (z0 : Int) : Int × Int × Int :=
  let z := z0 + 719468
  let era := Int.fdiv z 146097
  let doe := z - era * 146097
  let yoe := Int.fdiv (doe - Int.fdiv doe 1460 + Int.fdiv doe 36524 - Int.fdiv doe 146096) 365
  let y := yoe + era * 400
  let doy := doe - (365 * yoe + Int.fdiv yoe 4 - Int.fdiv yoe 100)
  let mp := Int.fdiv (5 * doy + 2) 153
  let d := doy - Int.fdiv (153 * mp + 2) 5 + 1
  let m := if mp < 10 then mp + 3 else mp - 9
  (if m ≤ 2 then y + 1 else y, m, d)

/-- Time value (milliseconds since the epoch, midnight UTC) of the civil
date `y-m-d`, provided the month and the day are in range; `none` is the
NaN time value of an invalid date. -/
def mkUtcDate (y m d : Int) : Option Int :=
  if 1 ≤ m ∧ m ≤ 12 ∧ 1 ≤ d ∧ d ≤ daysInMonth y m then
    some (daysFromCivil y m d * 86400000)
  else none

/-- Date parsing of ECMA-262 applied to a string (the Date Time String
Format), restricted to the date-only productions `YYYY`, `YYYY-MM` and
`YYYY-MM-DD`, which are interpreted as midnight UTC; a string matching no
production — including every string with a time suffix and every
implementation-specific fallback format, none of which the specification
exercises — yields the invalid date `none`. -/
def jsParseDateString (s : String) : Option Int :=
  match s.data with
  | [a, b, c, d] =>
    (fourDigits a b c d).bind fun y => mkUtcDate y 1 1
  | [a, b, c, d, h1, e, f] =>
    if h1 = '-' then
      (fourDigits a b c d).bind fun y =>
        (twoDigits e f).bind fun m => mkUtcDate y m 1
    else none
  | [a, b, c, d, h1, e, f, h2, g, h] =>
    if h1 = '-' ∧ h2 = '-' then
      (fourDigits a b c d).bind fun y =>
        (twoDigits e f).bind fun m =>
          (twoDigits g h).bind fun dd => mkUtcDate y m dd
    else none
  | _ => none

mutual

/-- ToString of one array element inside Array.prototype.join: `null` and
`undefined` become the empty string, every other value converts with
ToString, a nested array by its own comma join. -/
def jsElemString : JSVal → String
  | JSVal.null => ""
  | JSVal.undef => ""
  | JSVal.bool b => cond b "true" "false"
  | JSVal.num n => jsNumToString n
  | JSVal.str s => s
  | JSVal.obj => "[object Object]"
  | JSVal.arr ys => jsJoinComma ys
termination_by v => sizeOf v

/-- Array.prototype.join with the default comma separator, which is the
string conversion of an array (Array.prototype.toString). -/
def jsJoinComma : List JSVal → String
  | [] => ""
  | [x] => jsElemString x
  | x :: y :: ys => jsElemString x ++ "," ++ jsJoinComma (y :: ys)
termination_by l => sizeOf l

end

/-- The `new Date(value)` constructor of ECMA-262 on the modelled values:
a string is parsed by the Date Time String Format; a number is its own
time value, invalid outside the range of 8.64e15 milliseconds around the
epoch and for the non-finite numbers; `null` and the booleans convert by
ToNumber; `undefined` converts to NaN; an array converts by ToPrimitive
to its comma join and is then parsed as a string, and a plain object to
the string of no date.  The constructor itself never throws. -/
def newDate : JSVal → Option Int
  | JSVal.str s => jsParseDateString s
  | JSVal.num (JSNum.finite i) =>
    if i.natAbs ≤ 8640000000000000 then some i else none
  | JSVal.num _ => none
  | JSVal.bool b => some (cond b 1 0)
  | JSVal.null => some 0
  | JSVal.undef => none
  | JSVal.arr xs => jsParseDateString (jsJoinComma xs)
  | JSVal.obj => jsParseDateString "[object Object]"

/-- Long month names of the `en-GB` locale. -/
def monthLongName (m : Int) : String :=
  List.getD
    ["January", "February", "March", "April", "May", "June", "July",
     "August", "September", "October", "November", "December"]
    (m - 1).toNat ""

/-- Date.prototype.toLocaleDateString under the `'en-GB'` locale with the
options `{year:'numeric', month:'long', day:'numeric'}`, the host time
zone being UTC.  ECMA-402 prescribes the string `"Invalid Date"` — not an
exception — for the NaN time value; otherwise the en-GB long form is the
day, the full month name and the year, separated by spaces. -/
def toLocaleDateStringEnGB : Option Int → String
  | none => "Invalid Date"
  | some t =>
    let p := civilFromDays (Int.fdiv t 86400000)
    toString p.2.2 ++ " " ++ monthLongName p.2.1 ++ " " ++ toString p.1

/-- Body of the `try` block of `formatDate`: construct the date, format
it.  Its type records that the block could in principle throw, but no
step of it does — `new Date` on these values and `toLocaleDateString`
are total — so it always returns `Except.ok`. -/
def formatDateBody (v : JSVal) : Except JSVal String :=
  Except.ok (toLocaleDateStringEnGB (newDate v))

/-- Embeds `formatDate(dateString)` from `src/unnamed/part_000`: the
guard `!dateString` returns the empty string; otherwise the `try` block
runs and the `catch` handler would turn a thrown value into the empty
string. -/
def formatDate (v : JSVal) : String :=
  if jsFalsy v then ""
  else match formatDateBody v with
    | Except.ok s => s
    | Except.error _ => ""

/-! Helper lemmas about the embedded platform primitives. -/

theorem toDigitsCore_length_ge (b : Nat) :
    ∀ (fuel n : Nat) (ds : List Char), ds.length ≤ (Nat.toDigitsCore b fuel n ds).length := by
  intro fuel
  induction fuel with
  | zero => intro n ds; exact Nat.le_refl _
  | succ m ih =>
    intro n ds
    simp only [Nat.toDigitsCore]
    split
    · exact Nat.le_succ _
    · exact Nat.le_trans (Nat.le_succ _) (ih (n / b) ((n % b).digitChar :: ds))

theorem toDigits_length_pos (b n : Nat) : 0 < (Nat.toDigits b n).length := by
  unfold Nat.toDigits
  simp only [Nat.toDigitsCore]
  split
  · exact Nat.succ_pos _
  · exact Nat.lt_of_lt_of_le (Nat.succ_pos _)
      (toDigitsCore_length_ge b n (n / b) [Nat.digitChar (n % b)])

theorem natRepr_ne_empty (n : Nat) : Nat.repr n ≠ "" := by
  intro h
  have h2 := congrArg String.data h
  have h3 := congrArg List.length h2
  simp only [Nat.repr, List.asString] at h3
  exact absurd h3 (Nat.ne_of_gt (toDigits_length_pos 10 n))

theorem intToString_ne_empty (i : Int) : toString i ≠ "" := by
  cases i with
  | ofNat m => exact natRepr_ne_empty m
  | negSucc m =>
    intro h
    have h2 := congrArg String.length h
    rw [show toString (Int.negSucc m) = "-" ++ Nat.repr (m + 1) from rfl] at h2
    rw [String.length_append, show ("-" : String).length = 1 from rfl,
      show ("" : String).length = 0 from rfl] at h2
    omega

theorem jsNumToString_ne_empty (n : JSNum) : jsNumToString n ≠ "" := by
  cases n with
  | nan => decide
  | inf => decide
  | negInf => decide
  | finite i => exact intToString_ne_empty i

theorem jsTrim_length_le (s : String) : (jsTrim s).length ≤ s.length := by
  show (jsTrim s).length ≤ s.data.length
  unfold jsTrim
  rw [String.length_mk, List.length_reverse]
  calc ((s.data.dropWhile isJsWhitespace).reverse.dropWhile isJsWhitespace).length
      ≤ (s.data.dropWhile isJsWhitespace).reverse.length :=
        (List.dropWhile_sublist _).length_le
    _ = (s.data.dropWhile isJsWhitespace).length := List.length_reverse _
    _ ≤ s.data.length := (List.dropWhile_sublist _).length_le

theorem jsSlice_zero_take (s : String) (k : Nat) (hk : k ≤ s.length) :
    jsSlice s 0 (k : Int) = String.mk (s.data.take k) := by
  have h0 : ¬ ((0 : Int) < 0) := by omega
  have h2 : ¬ ((k : Int) < 0) := by omega
  have h3 : min (0 : Int) (s.length : Int) = 0 :=
    min_eq_left (Int.natCast_nonneg _)
  have h4 : min (k : Int) (s.length : Int) = (k : Int) :=
    min_eq_left (by exact_mod_cast hk)
  simp only [jsSlice, h0, if_false, h2, h3, h4]
  rw [show ((0 : Int).toNat) = 0 from rfl, List.drop_zero,
    show ((k : Int) - 0) = (k : Int) from by omega, Int.toNat_natCast]

theorem jsSlice_zero_length_le (s : String) (m : Int) (hm : 0 ≤ m) :
    ((jsSlice s 0 m).length : Int) ≤ m := by
  have h0 : ¬ ((0 : Int) < 0) := by omega
  have h2 : ¬ (m < 0) := by omega
  have h3 : min (0 : Int) (s.length : Int) = 0 :=
    min_eq_left (Int.natCast_nonneg _)
  simp only [jsSlice, h0, if_false, h2, h3]
  rw [show ((0 : Int).toNat) = 0 from rfl, List.drop_zero, String.length_mk]
  have h5 : (s.data.take (min m (s.length : Int) - 0).toNat).length
      ≤ (min m (s.length : Int) - 0).toNat := by
    rw [List.length_take]
    exact Nat.min_le_left _ _
  have h6 : min m (s.length : Int) ≤ m := min_le_left _ _
  omega

/-! Claim theorems. -/

/-- C2: for every query and every fallback value, if executing the query
raises an error or the query returns an empty (absent, i.e. nullish)
result, fetch-with-fallback returns the supplied fallback value — or the
absent value `null`, the default fallback, when none was supplied. -/
theorem fetchFromSanity_fallback_on_failure (o : Except JSVal JSVal) (fb : JSVal)
    (h : (∃ e, o = Except.error e) ∨ ∃ r, o = Except.ok r ∧ jsNullish r = true) :
    fetchFromSanity o fb = fb := by
  rcases h with ⟨e, rfl⟩ | ⟨r, rfl, hr⟩
  · rfl
  · simp [fetchFromSanity, hr]

/-- Witness for C2: a raised error yields the supplied fallback, and a
null result with the default (absent) fallback yields null. -/
theorem fetchFromSanity_fallback_on_failure_w :
    fetchFromSanity (Except.error JSVal.obj) (JSVal.str "fb") = JSVal.str "fb" ∧
    fetchFromSanity (Except.ok JSVal.null) JSVal.null = JSVal.null :=
  ⟨fetchFromSanity_fallback_on_failure _ _ (Or.inl ⟨_, rfl⟩),
   fetchFromSanity_fallback_on_failure _ _ (Or.inr ⟨_, rfl, rfl⟩)⟩

/-- C3: for every query that succeeds with a non-empty (non-nullish)
result and every fallback value, fetch-with-fallback returns exactly that
query result; the fallback is not substituted. -/
theorem fetchFromSanity_preserves_success (r fb : JSVal)
    (h : jsNullish r = false) : fetchFromSanity (Except.ok r) fb = r := by
  simp [fetchFromSanity, h]

/-- Witness for C3: a successful string result is returned, not the
fallback. -/
theorem fetchFromSanity_preserves_success_w :
    fetchFromSanity (Except.ok (JSVal.str "doc")) (JSVal.str "fb") = JSVal.str "doc" :=
  fetchFromSanity_preserves_success _ _ rfl

/-- C4: for every query outcome and every fallback value,
fetch-with-fallback never raises (it is a total function into values, the
catch clause absorbing every rejection) and its value is always either
the query result or the fallback, never a third value. -/
theorem fetchFromSanity_never_raises (o : Except JSVal JSVal) (fb : JSVal) :
    fetchFromSanity o fb = fb ∨ ∃ r, o = Except.ok r ∧ fetchFromSanity o fb = r := by
  cases o with
  | error e => exact Or.inl rfl
  | ok r =>
    cases hr : jsNullish r with
    | true => exact Or.inl (by simp [fetchFromSanity, hr])
    | false => exact Or.inr ⟨r, rfl, by simp [fetchFromSanity, hr]⟩

/-- C8: fetch-with-fallback substitutes the fallback for a successful
result only when that result is null or undefined; an empty array, the
empty string, zero and false are all returned unchanged. -/
theorem fetchFromSanity_nullish_only (fb : JSVal) :
    fetchFromSanity (Except.ok (JSVal.arr [])) fb = JSVal.arr [] ∧
    fetchFromSanity (Except.ok (JSVal.str "")) fb = JSVal.str "" ∧
    fetchFromSanity (Except.ok (JSVal.num (JSNum.finite 0))) fb = JSVal.num (JSNum.finite 0) ∧
    fetchFromSanity (Except.ok (JSVal.bool false)) fb = JSVal.bool false ∧
    fetchFromSanity (Except.ok JSVal.null) fb = fb ∧
    fetchFromSanity (Except.ok JSVal.undef) fb = fb ∧
    (∀ r, jsNullish r = false → fetchFromSanity (Except.ok r) fb = r) := by
  refine ⟨rfl, rfl, rfl, rfl, rfl, rfl, fun r h => ?_⟩
  simp [fetchFromSanity, h]

/-- Witness for C8: with a null fallback, a false result and a string
result come back unchanged. -/
theorem fetchFromSanity_nullish_only_w :
    fetchFromSanity (Except.ok (JSVal.bool false)) JSVal.null = JSVal.bool false ∧
    fetchFromSanity (Except.ok (JSVal.str "x")) JSVal.null = JSVal.str "x" :=
  ⟨(fetchFromSanity_nullish_only JSVal.null).2.2.2.1,
   (fetchFromSanity_nullish_only JSVal.null).2.2.2.2.2.2 _ rfl⟩

/-- C6: format-year of a numeric value is its textual representation
(2024 renders as "2024"), and of any non-numeric value — including the
string "2024" and null — is the empty string. -/
theorem formatYear_spec :
    formatYear (JSVal.num (JSNum.finite 2024)) = "2024" ∧
    formatYear (JSVal.str "2024") = "" ∧
    formatYear JSVal.null = "" ∧
    (∀ n, formatYear (JSVal.num n) = jsNumToString n) ∧
    (∀ v, (∀ n, v ≠ JSVal.num n) → formatYear v = "") := by
  refine ⟨rfl, rfl, rfl, fun _ => rfl, fun v h => ?_⟩
  cases v <;> first | rfl | exact absurd rfl (h _)

/-- Witness for C6: a boolean is not numeric, so format-year yields the
empty string on it. -/
theorem formatYear_spec_w : formatYear (JSVal.bool true) = "" :=
  formatYear_spec.2.2.2.2 (JSVal.bool true) (fun _ h => JSVal.noConfusion h)

/-- C9: format-year renders every value of numeric type, the non-finite
ones included, by its standard string rendering — NaN as "NaN", Infinity
as "Infinity", -5 as "-5" — and the empty-string branch is taken only for
values of non-numeric type (a numeric value never yields ""). -/
theorem formatYear_numeric_rendering :
    formatYear (JSVal.num JSNum.nan) = "NaN" ∧
    formatYear (JSVal.num JSNum.inf) = "Infinity" ∧
    formatYear (JSVal.num (JSNum.finite (-5))) = "-5" ∧
    (∀ n, formatYear (JSVal.num n) = jsNumToString n) ∧
    (∀ v, formatYear v = "" → ∀ n, v ≠ JSVal.num n) := by
  refine ⟨rfl, rfl, rfl, fun _ => rfl, fun v hv n hvn => ?_⟩
  subst hvn
  exact jsNumToString_ne_empty n hv

/-- Witness for C9: format-year of the string "x" is empty, hence "x" is
not a numeric value. -/
theorem formatYear_numeric_rendering_w : JSVal.str "x" ≠ JSVal.num JSNum.nan :=
  formatYear_numeric_rendering.2.2.2.2 (JSVal.str "x") rfl JSNum.nan

set_option maxRecDepth 8192 in
/-- Counterexample to C5 as stated: on a 151-character string that starts
with a space, the code trims the LEADING space of the 150-character cut
as well — `trim()` strips both ends — so the result is 149 letters and
the ellipsis, not the first 150 characters with only trailing whitespace
removed (which would keep the leading space). -/
theorem truncateText_trailing_trim_cex :
    truncateText (JSVal.str (String.mk (' ' :: List.replicate 150 'a'))) 150
      = String.mk (List.replicate 149 'a') ++ "..." ∧
    truncateText (JSVal.str (String.mk (' ' :: List.replicate 150 'a'))) 150
      ≠ String.mk (' ' :: List.replicate 149 'a') ++ "..." := by
  constructor
  · decide
  · decide

/-- C5 (amended): with max-length at its default 150, truncate-text of an
absent or non-string value is the empty string; of a string within the
limit, the string unchanged; of a longer string, the first 150 characters
with LEADING AND trailing whitespace trimmed and the ellipsis "..."
appended. -/
theorem truncateText_default_spec (v : JSVal) :
    ((∀ s, v ≠ JSVal.str s) → truncateText v 150 = "") ∧
    (∀ s, v = JSVal.str s → s.length ≤ 150 → truncateText v 150 = s) ∧
    (∀ s, v = JSVal.str s → 150 < s.length →
      truncateText v 150 = jsTrim (String.mk (s.data.take 150)) ++ "...") := by
  refine ⟨fun h => ?_, fun s hv hle => ?_, fun s hv hgt => ?_⟩
  · cases v <;> first | exact absurd rfl (h _) | simp [truncateText, jsFalsy, jsIsString]
  · subst hv
    cases hd : s.data with
    | nil =>
      have hs : s = "" := by
        cases s with
        | mk l => cases hd; rfl
      rw [hs]; rfl
    | cons a as =>
      have hb : s.data.isEmpty = false := by rw [hd]; rfl
      have hle2 : (s.length : Int) ≤ 150 := by exact_mod_cast hle
      simp [truncateText, jsFalsy, jsIsString, hb, hle2]
  · subst hv
    have hne : s.data ≠ [] := by
      intro hd
      have : s.length = 0 := by
        show s.data.length = 0
        rw [hd]; rfl
      omega
    have hb : s.data.isEmpty = false := by
      cases hd : s.data with
      | nil => exact absurd hd hne
      | cons a as => rfl
    have hni : ¬ ((s.length : Int) ≤ 150) := by
      have : (150 : Int) < (s.length : Int) := by exact_mod_cast hgt
      omega
    have hsl : jsSlice s 0 150 = String.mk (s.data.take 150) := by
      have := jsSlice_zero_take s 150 (Nat.le_of_lt hgt)
      exact_mod_cast this
    simp [truncateText, jsFalsy, jsIsString, hb, hni, hsl]

/-- Witness for C5 (amended): a short string passes through unchanged,
and a malformed (numeric) input yields the empty string. -/
theorem truncateText_default_spec_w :
    truncateText (JSVal.str "hello") 150 = "hello" ∧
    truncateText (JSVal.num (JSNum.finite 42)) 150 = "" :=
  ⟨(truncateText_default_spec (JSVal.str "hello")).2.1 "hello" rfl (by decide),
   (truncateText_default_spec (JSVal.num (JSNum.finite 42))).1
     (fun s h => JSVal.noConfusion h)⟩

/-- Counterexample to C10 as stated: with the negative max-length -1, the
string "hello" (length 5) exceeds max-length, yet the output "hell..."
has length 7, which is not at most -1 + 3: the JavaScript slice treats a
negative end index as counting from the end of the string, so the cut
keeps more than max-length characters. -/
theorem truncateText_length_bound_cex :
    (-1 : Int) < ("hello".length : Int) ∧
    ¬ (((truncateText (JSVal.str "hello") (-1)).length : Int) ≤ -1 + 3) := by
  constructor
  · decide
  · decide

/-- C10 (amended): for every NON-NEGATIVE max-length and every string
input whose length exceeds it, the output of truncate-text has length at
most max-length + 3: the cut keeps at most max-length characters,
trimming can only shorten the cut, and the three appended dots account
for the rest. -/
theorem truncateText_length_bound (s : String) (m : Int) (hm : 0 ≤ m)
    (hgt : m < (s.length : Int)) :
    ((truncateText (JSVal.str s) m).length : Int) ≤ m + 3 := by
  have hne : s.data ≠ [] := by
    intro hd
    have h0 : s.length = 0 := by
      show s.data.length = 0
      rw [hd]; rfl
    rw [h0] at hgt
    omega
  have hb : s.data.isEmpty = false := by
    cases hd : s.data with
    | nil => exact absurd hd hne
    | cons a as => rfl
  have hni : ¬ ((s.length : Int) ≤ m) := by omega
  have hres : truncateText (JSVal.str s) m = jsTrim (jsSlice s 0 m) ++ "..." := by
    simp [truncateText, jsFalsy, jsIsString, hb, hni]
  rw [hres, String.length_append]
  have t1 : (jsTrim (jsSlice s 0 m)).length ≤ (jsSlice s 0 m).length :=
    jsTrim_length_le _
  have t2 : ((jsSlice s 0 m).length : Int) ≤ m := jsSlice_zero_length_le s m hm
  have t3 : ("..." : String).length = 3 := rfl
  omega

/-- Witness for C10 (amended): max-length 2 is non-negative, "aaaa"
exceeds it, and the output length is at most 5. -/
theorem truncateText_length_bound_w :
    (0 : Int) ≤ 2 ∧ (2 : Int) < ("aaaa".length : Int) ∧
    ((truncateText (JSVal.str "aaaa") 2).length : Int) ≤ 2 + 3 :=
  ⟨by decide, by decide, truncateText_length_bound "aaaa" 2 (by decide) (by decide)⟩

/-- C1 is a code bug at the unparseable input: the absent inputs do map
to the empty string and "2024-03-05" does render as "5 March 2024" under
the fixed en-GB locale, but format-date("not-a-date") returns the string
"Invalid Date", not the empty string the specification promises — the
Date constructor does not throw on an unparseable string, it yields an
invalid date, and toLocaleDateString renders that as "Invalid Date"
(ECMA-402) instead of throwing, so the catch that would return "" is
never reached. -/
theorem formatDate_parse_failure_bug :
    formatDate JSVal.null = "" ∧
    formatDate JSVal.undef = "" ∧
    formatDate (JSVal.str "") = "" ∧
    formatDate (JSVal.str "2024-03-05") = "5 March 2024" ∧
    formatDate (JSVal.str "not-a-date") = "Invalid Date" ∧
    formatDate (JSVal.str "not-a-date") ≠ "" := by
  refine ⟨rfl, rfl, rfl, by decide, by decide, by decide⟩

/-- C7: every one of the four operations is total.  No outcome of the
remote call escapes fetch-with-fallback (a raised error becomes the
fallback, and the result is always either the query result or the
fallback); a non-numeric input to format-year, a non-string input to
truncate-text and a falsy input to format-date all degrade to the empty
string; the try block of format-date never throws (its outcome is always
ok); and every fuzz input of the specification — null, undefined,
objects, negative numbers, empty strings — yields a defined value. -/
theorem utilities_total :
    (∀ e fb, fetchFromSanity (Except.error e) fb = fb) ∧
    (∀ o fb, ∃ v, fetchFromSanity o fb = v ∧ (v = fb ∨ o = Except.ok v)) ∧
    (∀ v, (∀ n, v ≠ JSVal.num n) → formatYear v = "") ∧
    (∀ v, (∀ s, v ≠ JSVal.str s) → truncateText v 150 = "") ∧
    (∀ v, ∃ s, formatDateBody v = Except.ok s) ∧
    (∀ v, jsFalsy v = true → formatDate v = "") ∧
    (formatYear JSVal.null = "" ∧ formatYear JSVal.undef = "" ∧
      formatYear JSVal.obj = "" ∧ formatYear (JSVal.str "") = "") ∧
    (truncateText JSVal.null 150 = "" ∧ truncateText JSVal.undef 150 = "" ∧
      truncateText JSVal.obj 150 = "" ∧ truncateText (JSVal.str "") 150 = "" ∧
      truncateText (JSVal.num (JSNum.finite (-3))) 150 = "") ∧
    (formatDate JSVal.null = "" ∧ formatDate JSVal.undef = "" ∧
      formatDate (JSVal.str "") = "" ∧
      formatDate (JSVal.num (JSNum.finite (-5))) = "31 December 1969" ∧
      formatDate JSVal.obj = "Invalid Date") := by
  refine ⟨fun e fb => rfl, fun o fb => ?_, fun v h => ?_, fun v h => ?_,
    fun v => ⟨_, rfl⟩, fun v h => ?_, ⟨rfl, rfl, rfl, rfl⟩,
    ⟨rfl, rfl, rfl, rfl, by decide⟩, ⟨rfl, rfl, rfl, by decide, by decide⟩⟩
  · cases o with
    | error e => exact ⟨fb, rfl, Or.inl rfl⟩
    | ok r =>
      cases hr : jsNullish r with
      | true => exact ⟨fb, by simp [fetchFromSanity, hr], Or.inl rfl⟩
      | false => exact ⟨r, by simp [fetchFromSanity, hr], Or.inr rfl⟩
  · cases v <;> first | exact absurd rfl (h _) | rfl
  · cases v <;> first | exact absurd rfl (h _) | simp [truncateText, jsFalsy, jsIsString]
  · simp [formatDate, h]

/-- Witness for C7: the universally quantified parts applied at concrete
malformed inputs — an array is not numeric, NaN is not a string, false is
falsy — and an absorbed error. -/
theorem utilities_total_w :
    fetchFromSanity (Except.error JSVal.null) (JSVal.str "f") = JSVal.str "f" ∧
    formatYear (JSVal.arr []) = "" ∧
    truncateText (JSVal.num JSNum.nan) 150 = "" ∧
    formatDate (JSVal.bool false) = "" :=
  ⟨utilities_total.1 JSVal.null (JSVal.str "f"),
   utilities_total.2.2.1 (JSVal.arr []) (fun _ h => JSVal.noConfusion h),
   utilities_total.2.2.2.1 (JSVal.num JSNum.nan) (fun _ h => JSVal.noConfusion h),
   utilities_total.2.2.2.2.2.1 (JSVal.bool false) rfl⟩
